import Mathlib

/-!
Verification of the Digital-Court trial simulator.

Shallow embedding of the trial state machine and deliberation protocol:

* `src/agents/juror.py` — juror response parsing (`JurorBrain._parse_response`),
  score aggregation (`JurorSwarm.get_average_score`) and verdict computation
  (`JurorSwarm.get_verdict`);
* `src/orchestrator/trial.py` — the `TrialOrchestrator` state machine:
  `initialize_court`, `should_conclude_debate`, `run_autonomous_debate`,
  `export_transcript`;
* `src/core/gemini_client.py` — `GeminiBrain.__init__` construction-time
  validation;
* `src/config/settings.py` — the `Settings` defaults;
* `src/orchestrator/phases.py` — the `TrialPhase` enumeration.

Python strings are modelled as `List Char` where character-level operations
matter (parsing) and as `String` where the content is opaque.  Python `int`
is modelled as `ℤ` (`ℕ` for round counters, which are only ever incremented
from 0), and the float average of integer scores is modelled exactly as `ℚ`.
LLM calls are modelled as oracle parameters: the response text an agent would
return is passed in as data, so every definition is a pure function of the
state and the oracles.
-/

/-! ## Python string primitives -/

/-- `listStartsWith p s` is Python `s.startswith(p)` on character lists. -/
def listStartsWith : List Char → List Char → Bool
  | [], _ => true
  | _ :: _, [] => false
  | p :: ps, c :: cs => p == c && listStartsWith ps cs

/-- `listContains n s` is Python `n in s` (substring containment). -/
def listContains (needle : List Char) : List Char → Bool
  | [] => listStartsWith needle []
  | c :: cs => listStartsWith needle (c :: cs) || listContains needle cs

/-- Python `str.upper()` (modelled on the ASCII range, which is all the
source compares against). -/
def pyUpper (s : List Char) : List Char :=
  s.map Char.toUpper

/-- Python `str.strip()`: remove leading and trailing whitespace. -/
def pyStrip (s : List Char) : List Char :=
  ((s.dropWhile Char.isWhitespace).reverse.dropWhile Char.isWhitespace).reverse

/-- Python `s.split(sep)` for a one-character separator: splits on every
occurrence, keeping empty pieces, and yields `[s]` when `sep` is absent. -/
def pySplit (sep : Char) : List Char → List (List Char)
  | [] => [[]]
  | c :: rest =>
    if c = sep then [] :: pySplit sep rest
    else
      match pySplit sep rest with
      | [] => [[c]]
      | h :: t => (c :: h) :: t

/-- The text after the first colon, when a colon occurs. -/
def afterFirstColonAux : List Char → Option (List Char)
  | [] => none
  | c :: rest => if c = ':' then some rest else afterFirstColonAux rest

/-- Python `s.split(":", 1)[-1]`: the text after the first colon, or the
whole string when no colon occurs. -/
def pyAfterFirstColon (s : List Char) : List Char :=
  (afterFirstColonAux s).getD s

/-- Python `s.split(":")[-1]`: the text after the last colon, or the whole
string when no colon occurs. -/
def pyAfterLastColon (s : List Char) : List Char :=
  (s.reverse.takeWhile (fun c => c ≠ ':')).reverse

/-- Python `int(t)` restricted to the digit-only strings produced by
`filter(str.isdigit, ...)`: fails exactly on the empty string (ValueError),
otherwise reads the decimal value. -/
def parseDigits (s : List Char) : Option ℕ :=
  match s with
  | [] => none
  | _ => some (s.foldl (fun acc c => 10 * acc + (c.toNat - '0'.toNat)) 0)

/-! ## Juror response parsing — `JurorBrain._parse_response` -/

/-- The dict returned by `JurorBrain._parse_response`. -/
structure ParseResult where
  monologue : List Char
  bias_score : ℤ
  deriving Repr, DecidableEq

/-- One iteration of the `for line in response.split("\n")` loop of
`_parse_response`.  Note the source tests the raw line with
`line.upper().startswith(...)` — there is no stripping of leading
whitespace before the prefix test. -/
def processLine (acc : ParseResult) (line : List Char) : ParseResult :=
  if listStartsWith "THOUGHTS:".data (pyUpper line) then
    { acc with monologue := pyStrip (pyAfterFirstColon line) }
  else if listStartsWith "SCORE:".data (pyUpper line) then
    match parseDigits (((pyStrip (pyAfterLastColon line)).take 3).filter Char.isDigit) with
    | none => acc
    | some n => { acc with bias_score := max 0 (min 100 (n : ℤ)) }
  else acc

/-- `JurorBrain._parse_response(response)` with the juror's current bias
score `cur`.  The juror's `current_bias_score` after the call equals the
returned `bias_score` field (the source assigns them together). -/
def parse_response (cur : ℤ) (response : List Char) : ParseResult :=
  (pySplit '\n' response).foldl processLine
    { monologue := response, bias_score := cur }

/-! ## Juror swarm aggregation — `JurorSwarm` -/

/-- `JurorSwarm.get_average_score`: the panel is modelled by the list of its
jurors' current bias scores.  Empty panel returns the neutral 50.0. -/
def get_average_score (scores : List ℤ) : ℚ :=
  if scores = [] then 50
  else (scores.sum : ℚ) / (scores.length : ℚ)

/-- Python `int(q)` on a float/rational: truncation toward zero. -/
def pyInt (q : ℚ) : ℤ :=
  if 0 ≤ q then ⌊q⌋ else ⌈q⌉

/-- The verdict dict of `JurorSwarm.get_verdict` (the `individual_scores`
map and the 1-decimal display rounding of `average_score` carry no
information beyond `scores` and `avg` and are not modelled). -/
structure VerdictResult where
  verdict : String
  damages : ℤ
  deriving Repr, DecidableEq

/-- `JurorSwarm.get_verdict`: average strictly above 50 means the plaintiff
prevails with `damages = int((avg - 50) * 20000)`; otherwise the defense
prevails with no damages. -/
def get_verdict (scores : List ℤ) : VerdictResult :=
  let avg := get_average_score scores
  if 50 < avg then
    { verdict := "PLAINTIFF", damages := pyInt ((avg - 50) * 20000) }
  else
    { verdict := "DEFENSE", damages := 0 }

/-! ## Settings — `config/settings.py` -/

/-- The `Settings` dataclass defaults (fields the verified components read). -/
structure Settings where
  gemini_api_key : String := ""
  max_retries : ℕ := 3
  max_argument_rounds : ℕ := 5
  jury_size : ℕ := 6
  parallel_jury_workers : ℕ := 6
  autonomous_min_rounds : ℕ := 2
  autonomous_max_rounds : ℕ := 5
  deriving Repr, DecidableEq

/-- `get_settings()` with no environment overrides. -/
def default_settings : Settings := {}

/-! ## GeminiBrain construction — `core/gemini_client.py` -/

/-- The state a successfully constructed `GeminiBrain` holds. -/
structure GeminiBrain where
  persona_name : String
  system_instruction : String
  api_key : String
  deriving Repr, DecidableEq

/-- `GeminiBrain.__init__`: resolves the key as `api_key or
settings.gemini_api_key` (Python truthiness: `None` and `""` both fall back)
and raises `GeminiBrainError` when the resolved key is empty.  Errors are
modelled as `Except String`; the error value is the exception message. -/
def geminiBrain_init (persona_name system_instruction : String)
    (api_key : Option String) (settings : Settings) : Except String GeminiBrain :=
  let key :=
    match api_key with
    | some k => if k = "" then settings.gemini_api_key else k
    | none => settings.gemini_api_key
  if key = "" then
    .error "GEMINI_API_KEY not found. Set it in your .env file."
  else
    .ok { persona_name := persona_name,
          system_instruction := system_instruction,
          api_key := key }

/-! ## Trial phases — `orchestrator/phases.py` -/

/-- The `TrialPhase` enumeration. -/
inductive TrialPhase where
  | awaiting_complaint
  | court_assembled
  | opening_statements
  | arguments
  | jury_deliberation
  | verdict
  | adjourned
  deriving Repr, DecidableEq

/-- The `value` string of each `TrialPhase` member. -/
def TrialPhase.value : TrialPhase → String
  | .awaiting_complaint => "awaiting_complaint"
  | .court_assembled => "court_assembled"
  | .opening_statements => "opening_statements"
  | .arguments => "arguments"
  | .jury_deliberation => "jury_deliberation"
  | .verdict => "verdict"
  | .adjourned => "adjourned"

/-! ## Trial orchestrator state — `orchestrator/trial.py` -/

/-- A `TrialMessage` transcript entry.  `time.strftime` wall-clock stamps are
outside the model; the timestamp field is carried as opaque data and set to
`""` by the append operation. -/
structure TrialMessage where
  agent_type : String
  agent_name : String
  content : String
  score : Option ℤ := none
  timestamp : String := ""
  deriving Repr, DecidableEq

/-- `TrialOrchestrator` state.  Agents are `Option`s until the court is
initialized: the judge and the lawyers are modelled by their constructed
`GeminiBrain` state being present, the jury by the list of its jurors'
current bias scores. -/
structure TrialState where
  phase : TrialPhase
  case_facts : Option String
  case_title : String
  judge : Option GeminiBrain
  plaintiff_lawyer : Option GeminiBrain
  defense_lawyer : Option GeminiBrain
  jury : Option (List ℤ)
  transcript : List TrialMessage
  current_round : ℕ
  deriving Repr, DecidableEq

/-- `TrialOrchestrator.__init__`. -/
def TrialOrchestrator_init : TrialState :=
  { phase := .awaiting_complaint,
    case_facts := none,
    case_title := "Untitled Case",
    judge := none,
    plaintiff_lawyer := none,
    defense_lawyer := none,
    jury := none,
    transcript := [],
    current_round := 0 }

/-- `TrialOrchestrator._add_to_transcript` (returning the new state; the
source also returns the message, which callers of the modelled paths drop). -/
def add_to_transcript (st : TrialState) (agent_type agent_name content : String)
    (score : Option ℤ := none) : TrialState :=
  { st with transcript := st.transcript ++
      [{ agent_type := agent_type, agent_name := agent_name,
         content := content, score := score, timestamp := "" }] }

/-- `TrialOrchestrator.initialize_court`.  The four agent constructions are
the only fallible steps; each is passed as the `Except` outcome the
corresponding constructor call would produce (`.error e` models the
constructor raising with message `e`, `.ok` its result).  The `except`
branch records the failure in the transcript and returns `False` without
touching the phase. -/
def initialize_court (st : TrialState)
    (judgeC : Except String GeminiBrain)
    (plaintiffC : Except String GeminiBrain)
    (defenseC : Except String GeminiBrain)
    (juryC : Except String (List ℤ)) : Bool × TrialState :=
  match judgeC with
  | .error e => (false, add_to_transcript st "system" "ERROR" ("Initialization failed: " ++ e))
  | .ok j =>
    let st := { st with judge := some j }
    let st := add_to_transcript st "system" "COURT"
      "The Honorable Judge Evelyn Marshall presiding."
    match plaintiffC with
    | .error e => (false, add_to_transcript st "system" "ERROR" ("Initialization failed: " ++ e))
    | .ok p =>
      let st := { st with plaintiff_lawyer := some p }
      match defenseC with
      | .error e => (false, add_to_transcript st "system" "ERROR" ("Initialization failed: " ++ e))
      | .ok d =>
        let st := { st with defense_lawyer := some d }
        let st := add_to_transcript st "system" "COURT"
          "Counsel for both parties have entered the courtroom."
        match juryC with
        | .error e => (false, add_to_transcript st "system" "ERROR" ("Initialization failed: " ++ e))
        | .ok scores =>
          let st := { st with jury := some scores }
          let st := add_to_transcript st "system" "COURT"
            "The jury has been seated."
          (true, { st with phase := .court_assembled })

/-! ## Autonomous debate — `orchestrator/trial.py` -/

/-- `TrialOrchestrator.should_conclude_debate(round_num)`.  The judge's
`generate` call happens only in the third tier; its response text is the
`judgeResponse` oracle argument.  Returns the `(should_conclude, reason)`
pair of the source. -/
def should_conclude_debate (s : Settings) (round_num : ℕ)
    (judgeResponse : List Char) : Bool × String :=
  if round_num < s.autonomous_min_rounds then
    (false, "Minimum rounds not reached")
  else if s.autonomous_max_rounds ≤ round_num then
    (true, "Maximum rounds reached")
  else
    let sc := listContains "CONCLUDE".data (pyUpper judgeResponse)
    (sc, if sc then "Both parties have made their essential points"
         else "Arguments continue")

/-- The oracles feeding `run_autonomous_debate`: what each LLM call would
return, indexed by the round number issuing it. -/
structure DebateOracles where
  plaintiffResp : ℕ → String
  defenseResp : ℕ → String
  judgeConcludeResp : ℕ → List Char

/-- The events yielded by the `run_autonomous_debate` generator. -/
inductive DebateEvent where
  | judge (content : String)
  | round_start (round : ℕ)
  | plaintiff_speaking (round : ℕ)
  | plaintiff_done (round : ℕ) (content : String)
  | defense_speaking (round : ℕ)
  | defense_done (round : ℕ) (content : String)
  | round_complete (round : ℕ) (should_continue : Bool) (reason : String)
  | debate_complete (total_rounds : ℕ)
  deriving Repr, DecidableEq

/-- `JudgeAgent.open_court`: a pure template application of
`Prompts.JUDGE_OPEN_COURT` (no LLM call). -/
def judge_open_court (case_title : String) : String :=
  "Court is now in session for the matter of " ++ case_title ++
    ". We will hear opening statements from both counsel. Plaintiff, you may proceed."

/-- `Prompts.JUDGE_DEBATE_TRANSITION` formatting. -/
def judge_debate_transition (round_num : ℕ) (reason : String) : String :=
  "Round " ++ toString round_num ++ " complete. " ++ reason

/-- One iteration of the `for round_num in range(1, max + 1)` loop body of
`run_autonomous_debate`: sets `current_round`, obtains both arguments,
appends them and the judge's transition line to the transcript, and asks
`should_conclude_debate`.  Returns the yielded events, the new state, and
the `should_conclude` flag that decides the `break`. -/
def debate_round_body (s : Settings) (o : DebateOracles) (round_num : ℕ)
    (st : TrialState) : List DebateEvent × TrialState × Bool :=
  let st := { st with current_round := round_num }
  let pc := o.plaintiffResp round_num
  let st := add_to_transcript st "plaintiff" "ATTORNEY CHEN (Plaintiff)" pc
  let dc := o.defenseResp round_num
  let st := add_to_transcript st "defense" "ATTORNEY WEBB (Defense)" dc
  let decision := should_conclude_debate s round_num (o.judgeConcludeResp round_num)
  let st := add_to_transcript st "judge" "JUDGE MARSHALL"
    (judge_debate_transition round_num decision.2)
  ([.round_start round_num, .plaintiff_speaking round_num,
    .plaintiff_done round_num pc, .defense_speaking round_num,
    .defense_done round_num dc,
    .round_complete round_num (!decision.1) decision.2],
   st, decision.1)

/-- The `for round_num in range(1, max + 1)` loop of
`run_autonomous_debate`, iterated with explicit fuel: `fuel` is the number
of iterations the range still holds and `round_num` the next round index.
Returns the events yielded from this point on and the final state. -/
def debate_rounds (s : Settings) (o : DebateOracles) :
    ℕ → ℕ → TrialState → List DebateEvent × TrialState
  | 0, _, st => ([], st)
  | fuel + 1, round_num, st =>
    let step := debate_round_body s o round_num st
    if step.2.2 then
      (step.1, step.2.1)
    else
      let next := debate_rounds s o fuel (round_num + 1) step.2.1
      (step.1 ++ next.1, next.2)

/-- `TrialOrchestrator.run_autonomous_debate` as a whole: the list of all
yielded events together with the final orchestrator state. -/
def run_autonomous_debate (s : Settings) (o : DebateOracles) (st : TrialState) :
    List DebateEvent × TrialState :=
  let st := { st with phase := .arguments }
  let jc := judge_open_court st.case_title
  let st := add_to_transcript st "judge" "JUDGE MARSHALL" jc
  let loop := debate_rounds s o s.autonomous_max_rounds 1 st
  let st := { loop.2 with phase := .jury_deliberation }
  (DebateEvent.judge jc :: loop.1 ++ [.debate_complete st.current_round], st)

/-! ## Transcript export — `TrialOrchestrator.export_transcript` -/

/-- The JSON document `export_transcript` writes (the file path handling is
I/O outside the model; the document content is what is verified). -/
structure ExportData where
  case_title : String
  phase : String
  rounds_completed : ℤ
  verdict : Option VerdictResult
  transcript : List TrialMessage
  deriving Repr, DecidableEq

/-- `TrialOrchestrator.export_transcript`: note `rounds_completed` is
computed as `self.current_round - 1` over Python ints. -/
def export_transcript (st : TrialState) : ExportData :=
  { case_title := st.case_title,
    phase := st.phase.value,
    rounds_completed := (st.current_round : ℤ) - 1,
    verdict := st.jury.map get_verdict,
    transcript := st.transcript }

/-- Whether an `Except` outcome models a construction that did not raise. -/
def exceptOk {ε α : Type} : Except ε α → Bool
  | .ok _ => true
  | .error _ => false

/-! ## Helper lemmas -/

lemma processLine_bias_bounds (acc : ParseResult) (line : List Char)
    (h0 : 0 ≤ acc.bias_score) (h1 : acc.bias_score ≤ 100) :
    0 ≤ (processLine acc line).bias_score ∧ (processLine acc line).bias_score ≤ 100 := by
  unfold processLine
  split
  · exact ⟨h0, h1⟩
  · split
    · cases parseDigits (((pyStrip (pyAfterLastColon line)).take 3).filter Char.isDigit) with
      | none => exact ⟨h0, h1⟩
      | some n =>
          exact ⟨le_max_left 0 _, max_le (by norm_num) (min_le_left 100 _)⟩
    · exact ⟨h0, h1⟩

lemma foldl_processLine_bounds (lines : List (List Char)) :
    ∀ acc : ParseResult, 0 ≤ acc.bias_score → acc.bias_score ≤ 100 →
      0 ≤ (lines.foldl processLine acc).bias_score ∧
      (lines.foldl processLine acc).bias_score ≤ 100 := by
  induction lines with
  | nil => intro acc h0 h1; exact ⟨h0, h1⟩
  | cons l ls ih =>
      intro acc h0 h1
      have h := processLine_bias_bounds acc l h0 h1
      simpa using ih _ h.1 h.2

lemma pySplit_eq_single (sep : Char) (l : List Char) (h : sep ∉ l) :
    pySplit sep l = [l] := by
  induction l with
  | nil => rfl
  | cons c cs ih =>
      have hc : ¬ c = sep := fun e => h (by simp [e])
      have hcs : sep ∉ cs := fun m => h (List.mem_cons_of_mem _ m)
      unfold pySplit
      rw [if_neg hc, ih hcs]

/-! ## Claim theorems: verdict computation -/

/-- C1: `get_verdict` returns the plaintiff verdict exactly when the average
bias score is strictly greater than 50; an average at or below 50 (ties
included) yields the defense verdict with zero damages; and the empty panel
averages to the neutral 50, hence also yields the defense verdict with zero
damages. -/
theorem getVerdict_threshold (scores : List ℤ) :
    ((get_verdict scores).verdict = "PLAINTIFF" ↔ 50 < get_average_score scores) ∧
    (get_average_score scores ≤ 50 →
      (get_verdict scores).verdict = "DEFENSE" ∧ (get_verdict scores).damages = 0) ∧
    get_average_score ([] : List ℤ) = 50 ∧
    (get_verdict ([] : List ℤ)).verdict = "DEFENSE" ∧
    (get_verdict ([] : List ℤ)).damages = 0 := by
  refine ⟨?_, ?_, by simp [get_average_score], ?_, ?_⟩
  · simp only [get_verdict]
    split
    · next h => simpa using h
    · next h => simpa using h
  · intro hle
    simp only [get_verdict]
    rw [if_neg (not_lt.mpr hle)]
    exact ⟨rfl, rfl⟩
  · norm_num [get_verdict, get_average_score]
  · norm_num [get_verdict, get_average_score]

/-- Witness for C1 at the one-juror panel with score 40. -/
theorem getVerdict_threshold_witness :
    (get_verdict [40]).verdict = "DEFENSE" ∧ (get_verdict [40]).damages = 0 :=
  (getVerdict_threshold [40]).2.1 (by norm_num [get_average_score])

/-- C4 counterexample: a panel with scores 51, 50, 50 averages 151/3, so the
product `(average - 50) * 20000` is 20000/3; the source truncates it with
`int(...)` to 6666 while rounding to the nearest integer gives 6667. -/
theorem getVerdict_damages_not_rounded :
    50 < get_average_score [51, 50, 50] ∧
    (get_verdict [51, 50, 50]).damages = 6666 ∧
    round ((get_average_score [51, 50, 50] - 50) * 20000) = 6667 := by
  have havg : get_average_score [51, 50, 50] = 151/3 := by
    simp [get_average_score]
  refine ⟨by rw [havg]; norm_num, ?_, ?_⟩
  · simp only [get_verdict, havg]
    rw [if_pos (by norm_num : (50:ℚ) < 151/3)]
    simp only [pyInt]
    rw [if_pos (by norm_num : (0:ℚ) ≤ (151/3 - 50) * 20000)]
    norm_num [Int.floor_eq_iff]
  · rw [havg, round_eq]
    norm_num [Int.floor_eq_iff]

/-- C4 as amended: whenever the average exceeds 50, the reported damages are
the floor (equivalently, the toward-zero truncation of the positive product)
of `(average - 50) * 20000`, not its rounding. -/
theorem getVerdict_damages_truncated (scores : List ℤ)
    (h : 50 < get_average_score scores) :
    (get_verdict scores).damages = ⌊(get_average_score scores - 50) * 20000⌋ := by
  simp only [get_verdict]
  rw [if_pos h]
  simp only [pyInt]
  rw [if_pos (by nlinarith : (0:ℚ) ≤ (get_average_score scores - 50) * 20000)]

/-- Witness for C4's amended theorem at the one-juror panel with score 75:
the average is exactly 75 and the damages are 500000, matching the claim's
own example. -/
theorem getVerdict_damages_truncated_witness :
    50 < get_average_score [75] ∧
    (get_verdict [75]).damages = ⌊(get_average_score [75] - 50) * 20000⌋ ∧
    (get_verdict [75]).damages = 500000 := by
  have havg : get_average_score [75] = 75 := by
    simp [get_average_score]
  have h : (50:ℚ) < get_average_score [75] := by rw [havg]; norm_num
  refine ⟨h, getVerdict_damages_truncated [75] h, ?_⟩
  simp only [get_verdict, havg]
  rw [if_pos (by norm_num : (50:ℚ) < 75)]
  simp only [pyInt]
  rw [if_pos (by norm_num : (0:ℚ) ≤ ((75:ℚ) - 50) * 20000)]
  norm_num [Int.floor_eq_iff]

/-! ## Claim theorems: juror response parsing -/

/-- C3: after any `deliberate`/`think` call the juror's bias score stays in
`[0, 100]`, whatever the model returned: every parsed score is clamped
before being stored and a failed parse keeps the previous in-range score. -/
theorem parseResponse_score_in_range (cur : ℤ) (h0 : 0 ≤ cur) (h1 : cur ≤ 100)
    (response : List Char) :
    0 ≤ (parse_response cur response).bias_score ∧
    (parse_response cur response).bias_score ≤ 100 :=
  foldl_processLine_bounds (pySplit '\n' response)
    { monologue := response, bias_score := cur } h0 h1

/-- Witness for C3 at the adversarial response `SCORE: 9999` from a neutral
starting score of 50. -/
theorem parseResponse_score_in_range_witness :
    (0:ℤ) ≤ 50 ∧ (50:ℤ) ≤ 100 ∧
    (0 ≤ (parse_response 50 "SCORE: 9999".data).bias_score ∧
      (parse_response 50 "SCORE: 9999".data).bias_score ≤ 100) :=
  ⟨by decide, by decide,
   parseResponse_score_in_range 50 (by decide) (by decide) "SCORE: 9999".data⟩

/-- C5 counterexample: on the response `SCORE: -5` the digit filter drops the
minus sign, `int("5")` succeeds, and the score becomes 5 — it is not
retained unchanged (here the previous score was 50). -/
theorem scoreNegFive_changes_score :
    (parse_response 50 "SCORE: -5".data).bias_score = 5 ∧
    (parse_response 50 "SCORE: -5".data).bias_score ≠ 50 := by decide

/-- C5 as amended: for the response `SCORE: -5` the parse rule (text after
the last colon, stripped, first 3 characters, digits only) yields "5", which
parses and is clamped to 5, so the juror's score becomes 5 regardless of its
previous value; no exception reaches the caller (the parse is total). -/
theorem scoreNegFive_sets_five (cur : ℤ) :
    (parse_response cur "SCORE: -5".data).bias_score = 5 := rfl

/-- C6 counterexample: a line with leading whitespace before `THOUGHTS:` is
not recognized — the monologue stays the whole raw response instead of the
text after the colon. -/
theorem thoughts_leading_space_ignored :
    (parse_response 50 " THOUGHTS: hi".data).monologue = " THOUGHTS: hi".data ∧
    (parse_response 50 " THOUGHTS: hi".data).monologue ≠ "hi".data := by decide

/-- C6 as amended: a single-line response is recognized as a `THOUGHTS:`
line exactly when its uppercased form starts with `THOUGHTS:` with no
stripping of surrounding whitespace first; when recognized the monologue
becomes the trimmed text after the first colon, and otherwise (leading
whitespace included) the monologue stays the raw response. -/
theorem thoughts_requires_exact_prefix (cur : ℤ) (line : List Char)
    (h : '\n' ∉ line) :
    (parse_response cur line).monologue =
      (if listStartsWith "THOUGHTS:".data (pyUpper line) then
        pyStrip (pyAfterFirstColon line)
      else line) := by
  unfold parse_response
  rw [pySplit_eq_single _ _ h]
  simp only [List.foldl]
  unfold processLine
  split
  · rfl
  · by_cases hS : listStartsWith "SCORE:".data (pyUpper line) = true
    · rw [if_pos hS]
      cases parseDigits (((pyStrip (pyAfterLastColon line)).take 3).filter Char.isDigit) <;> rfl
    · rw [if_neg hS]

/-- Witness for C6's amended theorem on a recognized `THOUGHTS:` line. -/
theorem thoughts_requires_exact_prefix_witness :
    '\n' ∉ "THOUGHTS:   deep thought  ".data ∧
    (parse_response 7 "THOUGHTS:   deep thought  ".data).monologue =
      (if listStartsWith "THOUGHTS:".data (pyUpper "THOUGHTS:   deep thought  ".data) then
        pyStrip (pyAfterFirstColon "THOUGHTS:   deep thought  ".data)
      else "THOUGHTS:   deep thought  ".data) :=
  ⟨by decide, thoughts_requires_exact_prefix 7 "THOUGHTS:   deep thought  ".data (by decide)⟩

/-! ## Claim theorems: conclude decision -/

/-- C2: `should_conclude_debate` is a three-tier decision: rounds below the
minimum always continue and rounds at or above the maximum always conclude,
both independent of any judge text; in between, the decision is exactly
whether the judge's response contains `CONCLUDE` case-insensitively.  With
the default `minRounds = 2`, `maxRounds = 5`, the outcome depends on the
judge's text only for rounds 2, 3 and 4.  (The three-tier reading assumes
the configured floor does not exceed the ceiling, as in the source's
settings; with an inverted configuration the floor guard fires first.) -/
theorem shouldConcludeDebate_three_tier (s : Settings) (r : ℕ) (resp : List Char)
    (hs : s.autonomous_min_rounds ≤ s.autonomous_max_rounds) :
    (r < s.autonomous_min_rounds → (should_conclude_debate s r resp).1 = false) ∧
    (s.autonomous_max_rounds ≤ r → (should_conclude_debate s r resp).1 = true) ∧
    (s.autonomous_min_rounds ≤ r → r < s.autonomous_max_rounds →
      (should_conclude_debate s r resp).1 =
        listContains "CONCLUDE".data (pyUpper resp)) ∧
    (∀ r2 : ℕ, ¬ (2 ≤ r2 ∧ r2 < 5) → ∀ respA respB : List Char,
      (should_conclude_debate default_settings r2 respA).1 =
        (should_conclude_debate default_settings r2 respB).1) ∧
    (∀ r2 : ℕ, 2 ≤ r2 → r2 < 5 →
      (should_conclude_debate default_settings r2 "CONCLUDE".data).1 = true ∧
      (should_conclude_debate default_settings r2 ([] : List Char)).1 = false) := by
  have e1 : default_settings.autonomous_min_rounds = 2 := rfl
  have e2 : default_settings.autonomous_max_rounds = 5 := rfl
  refine ⟨?_, ?_, ?_, ?_, ?_⟩
  · intro h
    unfold should_conclude_debate
    rw [if_pos h]
  · intro h
    unfold should_conclude_debate
    rw [if_neg (by omega), if_pos h]
  · intro h1 h2
    unfold should_conclude_debate
    rw [if_neg (by omega), if_neg (by omega)]
  · intro r2 hr respA respB
    unfold should_conclude_debate
    rw [e1, e2]
    by_cases hlt : r2 < 2
    · rw [if_pos hlt, if_pos hlt]
    · rw [if_neg hlt, if_neg hlt, if_pos (by omega), if_pos (by omega)]
  · intro r2 h2 h5
    unfold should_conclude_debate
    rw [e1, e2]
    rw [if_neg (by omega), if_neg (by omega), if_neg (by omega), if_neg (by omega)]
    exact ⟨by decide, by decide⟩

/-- Witness for C2 with the default settings: round 1 continues even on a
concluding judge text, round 5 concludes even on a continuing text, and in
round 3 the judge's text decides. -/
theorem shouldConcludeDebate_three_tier_witness :
    (should_conclude_debate default_settings 1 "CONCLUDE".data).1 = false ∧
    (should_conclude_debate default_settings 5 "keep arguing".data).1 = true ∧
    (should_conclude_debate default_settings 3 "We should conclude now.".data).1 = true ∧
    (should_conclude_debate default_settings 3 "More argument is needed.".data).1 = false := by
  refine ⟨(shouldConcludeDebate_three_tier default_settings 1 "CONCLUDE".data
            (by decide)).1 (by decide),
          (shouldConcludeDebate_three_tier default_settings 5 "keep arguing".data
            (by decide)).2.1 (by decide),
          ?_, ?_⟩
  · rw [(shouldConcludeDebate_three_tier default_settings 3
        "We should conclude now.".data (by decide)).2.2.1 (by decide) (by decide)]
    decide
  · rw [(shouldConcludeDebate_three_tier default_settings 3
        "More argument is needed.".data (by decide)).2.2.1 (by decide) (by decide)]
    decide

/-! ## Claim theorems: court initialization -/

/-- C7: `initialize_court` is all-or-nothing with respect to the phase — it
returns `True` and moves the phase to `court_assembled` exactly when all
four agent constructions succeed, and on any construction failure it
returns `False` with the phase still `awaiting_complaint`. -/
theorem initializeCourt_all_or_nothing (st : TrialState)
    (jC pC dC : Except String GeminiBrain) (juC : Except String (List ℤ))
    (h : st.phase = .awaiting_complaint) :
    ((initialize_court st jC pC dC juC).1 = true ↔
      (exceptOk jC = true ∧ exceptOk pC = true ∧ exceptOk dC = true ∧
        exceptOk juC = true)) ∧
    ((initialize_court st jC pC dC juC).1 = true →
      (initialize_court st jC pC dC juC).2.phase = .court_assembled) ∧
    ((initialize_court st jC pC dC juC).1 = false →
      (initialize_court st jC pC dC juC).2.phase = .awaiting_complaint) := by
  cases jC <;> cases pC <;> cases dC <;> cases juC <;>
    simp [initialize_court, add_to_transcript, exceptOk, h]

/-- Witness for C7: from a fresh orchestrator, four successful
constructions assemble the court. -/
theorem initializeCourt_all_or_nothing_witness :
    (initialize_court TrialOrchestrator_init
      (.ok { persona_name := "Judge_Marshall", system_instruction := "judge sys",
             api_key := "k" })
      (.ok { persona_name := "Attorney_Chen", system_instruction := "plaintiff sys",
             api_key := "k" })
      (.ok { persona_name := "Attorney_Webb", system_instruction := "defense sys",
             api_key := "k" })
      (.ok [50, 50, 50, 50, 50, 50])).2.phase = TrialPhase.court_assembled :=
  (initializeCourt_all_or_nothing TrialOrchestrator_init _ _ _ _ rfl).2.1 (by decide)

/-! ## Claim theorems: persona-agent construction -/

/-- C8 counterexample: constructing a `GeminiBrain` with an EMPTY persona
system-instruction but a present API key succeeds — the source validates
only the credential, never the instruction. -/
theorem emptyInstruction_construction_succeeds :
    exceptOk (geminiBrain_init "Juror_1" "" (some "test-key") default_settings) = true := by
  decide

/-- C8 as amended: `GeminiBrain.__init__` fails synchronously with a
`GeminiBrainError` exactly when the resolved credential (the explicit key
if truthy, else the settings key) is empty; the persona system-instruction
is not validated, so construction with any instruction — empty included —
and a credential succeeds. -/
theorem geminiBrain_init_key_only (n i k : String) (s : Settings) :
    (exceptOk (geminiBrain_init n i none s) = true ↔ s.gemini_api_key ≠ "") ∧
    (exceptOk (geminiBrain_init n i (some k) s) = true ↔
      ¬ (k = "" ∧ s.gemini_api_key = "")) ∧
    (s.gemini_api_key = "" →
      geminiBrain_init n i none s =
        .error "GEMINI_API_KEY not found. Set it in your .env file.") := by
  unfold geminiBrain_init
  refine ⟨?_, ?_, ?_⟩
  · by_cases h : s.gemini_api_key = "" <;> simp [h, exceptOk]
  · by_cases hk : k = "" <;> by_cases h : s.gemini_api_key = "" <;>
      simp [hk, h, exceptOk]
  · intro h
    simp [h]

/-- Witness for C8's amended theorem: with no explicit key and the default
(empty) settings key, construction raises the configuration error. -/
theorem geminiBrain_init_key_only_witness :
    geminiBrain_init "Judge_Marshall" "You are a judge." none default_settings =
      .error "GEMINI_API_KEY not found. Set it in your .env file." :=
  (geminiBrain_init_key_only "Judge_Marshall" "You are a judge." "" default_settings).2.2 rfl

/-! ## Claim theorems: autonomous debate -/

lemma conclude_imp_min (s : Settings) (r : ℕ) (resp : List Char)
    (h : (should_conclude_debate s r resp).1 = true) :
    s.autonomous_min_rounds ≤ r := by
  unfold should_conclude_debate at h
  by_cases hr : r < s.autonomous_min_rounds
  · rw [if_pos hr] at h
    simp at h
  · omega

lemma debate_round_body_phase (s : Settings) (o : DebateOracles) (rn : ℕ)
    (st : TrialState) : (debate_round_body s o rn st).2.1.phase = st.phase := by
  simp [debate_round_body, add_to_transcript]

lemma debate_round_body_round (s : Settings) (o : DebateOracles) (rn : ℕ)
    (st : TrialState) : (debate_round_body s o rn st).2.1.current_round = rn := by
  simp [debate_round_body, add_to_transcript]

lemma debate_round_body_conclude (s : Settings) (o : DebateOracles) (rn : ℕ)
    (st : TrialState) (h : (debate_round_body s o rn st).2.2 = true) :
    s.autonomous_min_rounds ≤ rn := by
  refine conclude_imp_min s rn (o.judgeConcludeResp rn) ?_
  simpa [debate_round_body] using h

lemma debate_rounds_spec (s : Settings) (o : DebateOracles) :
    ∀ (fuel start : ℕ) (st : TrialState),
      (debate_rounds s o fuel start st).2.phase = st.phase ∧
      ((fuel = 0 ∧ (debate_rounds s o fuel start st).2 = st) ∨
       (1 ≤ fuel ∧ start ≤ (debate_rounds s o fuel start st).2.current_round ∧
        (debate_rounds s o fuel start st).2.current_round + 1 ≤ start + fuel ∧
        (s.autonomous_min_rounds ≤ (debate_rounds s o fuel start st).2.current_round ∨
         (debate_rounds s o fuel start st).2.current_round + 1 = start + fuel))) := by
  intro fuel
  induction fuel with
  | zero => intro start st; exact ⟨rfl, Or.inl ⟨rfl, rfl⟩⟩
  | succ n ih =>
    intro start st
    simp only [debate_rounds]
    split
    · next hc =>
        refine ⟨debate_round_body_phase s o start st,
          Or.inr ⟨Nat.le_add_left 1 n, ?_, ?_, Or.inl ?_⟩⟩
        · rw [debate_round_body_round]
        · rw [debate_round_body_round]; omega
        · rw [debate_round_body_round]
          exact debate_round_body_conclude s o start st hc
    · next hc =>
        obtain ⟨ihp, ihr⟩ := ih (start + 1) (debate_round_body s o start st).2.1
        dsimp only
        constructor
        · rw [ihp, debate_round_body_phase]
        · right
          rcases ihr with ⟨h0, heq⟩ | ⟨h1, hle, hub, hd⟩
          · subst h0
            rw [heq, debate_round_body_round]
            exact ⟨Nat.le_refl 1, Nat.le_refl start, by omega, Or.inr (by omega)⟩
          · refine ⟨by omega, by omega, by omega, ?_⟩
            rcases hd with hd | hd
            · exact Or.inl hd
            · exact Or.inr (by omega)

lemma run_autonomous_debate_last (s : Settings) (o : DebateOracles) (st : TrialState) :
    (run_autonomous_debate s o st).1.getLast? =
      some (.debate_complete (run_autonomous_debate s o st).2.current_round) := by
  unfold run_autonomous_debate
  dsimp only
  rw [List.getLast?_append_cons]
  rfl

lemma run_autonomous_debate_round_bounds (s : Settings) (o : DebateOracles)
    (st : TrialState) (hmin : s.autonomous_min_rounds ≤ s.autonomous_max_rounds)
    (h0 : st.current_round = 0) :
    (run_autonomous_debate s o st).2.current_round ≤ s.autonomous_max_rounds ∧
    s.autonomous_min_rounds ≤ (run_autonomous_debate s o st).2.current_round := by
  unfold run_autonomous_debate
  dsimp only
  obtain ⟨hp, hr⟩ := debate_rounds_spec s o s.autonomous_max_rounds 1
    (add_to_transcript { st with phase := .arguments } "judge" "JUDGE MARSHALL"
      (judge_open_court st.case_title))
  rcases hr with ⟨hf, heq⟩ | ⟨h1, hle, hub, hd⟩
  · rw [heq]
    simp [add_to_transcript, h0]
    omega
  · constructor
    · omega
    · rcases hd with hd | hd
      · exact hd
      · omega

/-- C9: every run of the autonomous debate yields a finite, non-empty event
sequence ending in `debate_complete` with the total rounds executed; when
the configured floor does not exceed the ceiling and the debate starts from
a fresh round counter, the executed total lies between
`autonomous_min_rounds` and `autonomous_max_rounds`, and the phase is
`jury_deliberation` when the final event is emitted. -/
theorem autonomousDebate_terminates_in_bounds (s : Settings) (o : DebateOracles)
    (st : TrialState) (hmin : s.autonomous_min_rounds ≤ s.autonomous_max_rounds)
    (h0 : st.current_round = 0) :
    (run_autonomous_debate s o st).1 ≠ [] ∧
    (run_autonomous_debate s o st).1.getLast? =
      some (.debate_complete (run_autonomous_debate s o st).2.current_round) ∧
    (run_autonomous_debate s o st).2.phase = TrialPhase.jury_deliberation ∧
    s.autonomous_min_rounds ≤ (run_autonomous_debate s o st).2.current_round ∧
    (run_autonomous_debate s o st).2.current_round ≤ s.autonomous_max_rounds := by
  obtain ⟨hub, hlb⟩ := run_autonomous_debate_round_bounds s o st hmin h0
  refine ⟨?_, run_autonomous_debate_last s o st, rfl, hlb, hub⟩
  unfold run_autonomous_debate
  simp

/-- Witness for C9 with the default settings, silent oracles and a fresh
orchestrator. -/
theorem autonomousDebate_terminates_in_bounds_witness :
    (run_autonomous_debate default_settings
      { plaintiffResp := fun _ => "", defenseResp := fun _ => "",
        judgeConcludeResp := fun _ => [] }
      TrialOrchestrator_init).2.phase = TrialPhase.jury_deliberation ∧
    default_settings.autonomous_min_rounds ≤
      (run_autonomous_debate default_settings
        { plaintiffResp := fun _ => "", defenseResp := fun _ => "",
          judgeConcludeResp := fun _ => [] }
        TrialOrchestrator_init).2.current_round :=
  ⟨(autonomousDebate_terminates_in_bounds default_settings _ TrialOrchestrator_init
      (by decide) rfl).2.2.1,
   (autonomousDebate_terminates_in_bounds default_settings _ TrialOrchestrator_init
      (by decide) rfl).2.2.2.1⟩

/-! ## Claim theorems: transcript export -/

/-- C10: `export_transcript` always records `rounds_completed` as
`current_round - 1`: a fresh orchestrator (round counter 0) exports
`rounds_completed = -1`, and after an autonomous debate whose final event
reports `r` total rounds the export records `r - 1` — one less than the
rounds actually executed. -/
theorem exportTranscript_rounds_completed :
    (export_transcript TrialOrchestrator_init).rounds_completed = -1 ∧
    (∀ st : TrialState, (export_transcript st).rounds_completed =
      (st.current_round : ℤ) - 1) ∧
    (∀ (s : Settings) (o : DebateOracles) (st : TrialState)
      (evs : List DebateEvent) (st2 : TrialState) (r : ℕ),
      run_autonomous_debate s o st = (evs, st2) →
      evs.getLast? = some (.debate_complete r) →
      (export_transcript st2).rounds_completed = (r : ℤ) - 1) := by
  refine ⟨by decide, fun st => rfl, ?_⟩
  intro s o st evs st2 r hrun hlast
  have h1 : evs = (run_autonomous_debate s o st).1 := by rw [hrun]
  have h2 : st2 = (run_autonomous_debate s o st).2 := by rw [hrun]
  rw [h1, run_autonomous_debate_last s o st] at hlast
  simp only [Option.some.injEq, DebateEvent.debate_complete.injEq] at hlast
  rw [h2]
  simp only [export_transcript, hlast]

/-- Witness for C10: with the default settings and silent oracles the
debate runs all 5 rounds and the export records 4 completed rounds. -/
theorem exportTranscript_rounds_completed_witness :
    (export_transcript (run_autonomous_debate default_settings
      { plaintiffResp := fun _ => "", defenseResp := fun _ => "",
        judgeConcludeResp := fun _ => [] }
      TrialOrchestrator_init).2).rounds_completed = (5 : ℤ) - 1 :=
  exportTranscript_rounds_completed.2.2 default_settings
    { plaintiffResp := fun _ => "", defenseResp := fun _ => "",
      judgeConcludeResp := fun _ => [] }
    TrialOrchestrator_init _ _ 5 rfl (by decide)
